import Mathlib

/-!
Verification of the data-prefetch core of the EthicalBank frontend
(`src/src/lib/data-prefetch.ts`).

The TypeScript `DataPrefetchService` keeps two JS `Map`s: `cache`
(key ↦ `{data, timestamp, ttl}`) and `prefetchPromises` (key ↦ the
in-flight promise for that key).  We embed JS `Map`s as functions
`String → Option α` (a JS `Map` holds at most one binding per key;
`Map.set` overwrites, `Map.delete` removes, `Map.get` looks up).

JavaScript promises and the event loop are embedded operationally:
the synchronous body of each `async` method runs atomically (none of
the bodies in the source contain an `await` before returning, except
the health probe of `prefetchDashboard`, which we pass in as an
argument), and the `.then` / `.catch` handlers attached to a
producer's promise run later as separate atomic steps (`settleSuccess`
/ `settleFailure` below).  Each producer invocation is identified by a
fresh promise id (`nextPromiseId`); every caller that receives the
same id receives the same JS promise object and therefore observes
the same eventual outcome.  `producerCalls` counts how many times a
`fetchFn` producer has been invoked.

JS `null` is a first-class value: `get` returns `entry.data`, which
may itself be `null`, and the absent marker is also `null`.  We model
payloads as `JSVal` with a distinguished `JSVal.null`.
-/

/-- A JSON-style JavaScript value with a distinguished `null`.
`DataPrefetchService` stores arbitrary payloads; `null` doubles as the
absent marker of `get`. -/
inductive JSVal where
  | null
  | num (n : Int)
  | str (s : String)
  deriving DecidableEq, Repr

/-- `CacheEntry<T>` of `data-prefetch.ts`: payload, creation timestamp
(`Date.now()` in milliseconds), and time-to-live in milliseconds. -/
structure CacheEntry where
  data : JSVal
  timestamp : Nat
  ttl : Nat
  deriving DecidableEq, Repr

/-- `Map.set`: insert or overwrite the binding of `k`. -/
def mapSet {α : Type} (m : String → Option α) (k : String) (v : α) :
    String → Option α :=
  fun k' => if k' = k then some v else m k'

/-- `Map.delete`: remove the binding of `k`. -/
def mapDelete {α : Type} (m : String → Option α) (k : String) :
    String → Option α :=
  fun k' => if k' = k then none else m k'

/-- The mutable state of the `DataPrefetchService` singleton, plus an
instrumentation counter (`producerCalls`) of producer invocations and
the supply of fresh promise ids. -/
structure PrefetchState where
  cache : String → Option CacheEntry
  prefetchPromises : String → Option Nat
  nextPromiseId : Nat
  producerCalls : Nat

/-- The state of the freshly constructed service: both maps empty. -/
def initState : PrefetchState :=
  { cache := fun _ => none
    prefetchPromises := fun _ => none
    nextPromiseId := 0
    producerCalls := 0 }

namespace DataPrefetchService

/-- `DEFAULT_TTL = 5 * 60 * 1000`. -/
def DEFAULT_TTL : Nat := 5 * 60 * 1000

/-- `get<T>(key)`: return the cached payload if present and
`now - entry.timestamp <= entry.ttl`; on a stale entry delete it and
return `null`; on a missing entry return `null`.  Returns the JS value
handed to the caller together with the updated state (lazy eviction
mutates the cache). -/
def get (st : PrefetchState) (key : String) (now : Nat) :
    JSVal × PrefetchState :=
  match st.cache key with
  | none => (JSVal.null, st)
  | some entry =>
      if entry.ttl < now - entry.timestamp then
        (JSVal.null, { st with cache := mapDelete st.cache key })
      else
        (entry.data, st)

/-- `set<T>(key, data, ttl)`: unconditionally insert or overwrite the
entry, with `timestamp := Date.now()`. -/
def set (st : PrefetchState) (key : String) (data : JSVal) (ttl : Nat)
    (now : Nat) : PrefetchState :=
  { st with cache := mapSet st.cache key ⟨data, now, ttl⟩ }

/-- `clear(key)`: delete one cache entry. -/
def clear (st : PrefetchState) (key : String) : PrefetchState :=
  { st with cache := mapDelete st.cache key }

/-- `clearAll()`: clear both the cache and the in-flight map. -/
def clearAll (st : PrefetchState) : PrefetchState :=
  { st with cache := fun _ => none, prefetchPromises := fun _ => none }

/-- What a single `prefetch` call hands back to its caller:
either a cached value returned synchronously, the already-in-flight
promise for the key, or the freshly started producer chain (the
producer was invoked in this call). -/
inductive PrefetchResult where
  | cached (v : JSVal)
  | joined (pid : Nat)
  | started (pid : Nat)
  deriving DecidableEq, Repr

/-- The synchronous body of `async prefetch(key, fetchFn, ttl)` (it
contains no `await`, so it runs atomically): consult `get`; on a
non-`null` cached value return it; otherwise return the in-flight
promise if one exists; otherwise invoke the producer, register the
chained promise under `key`, and return it. -/
def prefetch (st : PrefetchState) (key : String) (ttl : Nat) (now : Nat) :
    PrefetchResult × PrefetchState :=
  let c := get st key now
  if c.1 ≠ JSVal.null then
    (PrefetchResult.cached c.1, c.2)
  else
    match c.2.prefetchPromises key with
    | some pid => (PrefetchResult.joined pid, c.2)
    | none =>
        (PrefetchResult.started c.2.nextPromiseId,
          { c.2 with
              prefetchPromises :=
                mapSet c.2.prefetchPromises key c.2.nextPromiseId
              nextPromiseId := c.2.nextPromiseId + 1
              producerCalls := c.2.producerCalls + 1 })

/-- The `.then` handler attached in `prefetch` (runs when the producer
resolves): `set(key, data, ttl)` then delete the in-flight entry.
`key` and `ttl` are captured by the closure; `now` is the time the
handler runs. -/
def settleSuccess (st : PrefetchState) (key : String) (data : JSVal)
    (ttl : Nat) (now : Nat) : PrefetchState :=
  let st1 := set st key data ttl now
  { st1 with prefetchPromises := mapDelete st1.prefetchPromises key }

/-- The `.catch` handler attached in `prefetch` (runs when the
producer rejects): delete the in-flight entry and rethrow; the cache
is untouched. -/
def settleFailure (st : PrefetchState) (key : String) : PrefetchState :=
  { st with prefetchPromises := mapDelete st.prefetchPromises key }

/-- `n` back-to-back `prefetch` calls for the same key, none of which
is interleaved with a settlement: the event-loop picture of `n`
concurrent callers racing on a cold key.  Returns what each caller
received, in call order. -/
def prefetchN (st : PrefetchState) (key : String) (ttl : Nat) (now : Nat) :
    Nat → List PrefetchResult × PrefetchState
  | 0 => ([], st)
  | n + 1 =>
      let r := prefetch st key ttl now
      let rest := prefetchN r.2 key ttl now n
      (r.1 :: rest.1, rest.2)

/-- The eventual outcome of a promise. -/
inductive Outcome where
  | resolved (v : JSVal)
  | rejected (e : String)
  deriving DecidableEq, Repr

/-- The promise id a `prefetch` caller ends up waiting on (`none` when
the call returned a cached value synchronously). -/
def resultPid : PrefetchResult → Option Nat
  | PrefetchResult.cached _ => none
  | PrefetchResult.joined pid => some pid
  | PrefetchResult.started pid => some pid

/-- What a `prefetch` caller eventually observes, given the outcome
assignment `f` of the producer promises: a cached value resolves
immediately, and joining a promise yields that promise's outcome. -/
def resolveWith (f : Nat → Outcome) : PrefetchResult → Outcome
  | PrefetchResult.cached v => Outcome.resolved v
  | PrefetchResult.joined pid => f pid
  | PrefetchResult.started pid => f pid

/-- The eight cache keys issued by `prefetchDashboard(userId)`, in
source order, with the TTL (in milliseconds) each `prefetch` call
passes. -/
def dashboardKeys (userId : String) : List (String × Nat) :=
  [ ("accounts:" ++ userId, 5 * 60 * 1000)
  , ("accounts-summary:" ++ userId, 5 * 60 * 1000)
  , ("transactions:" ++ userId, 2 * 60 * 1000)
  , ("transactions-stats:" ++ userId, 2 * 60 * 1000)
  , ("transactions-recommendations:" ++ userId, 5 * 60 * 1000)
  , ("savings-summary:" ++ userId, 5 * 60 * 1000)
  , ("ai-insights:" ++ userId, 10 * 60 * 1000)
  , ("privacy-score:" ++ userId, 10 * 60 * 1000) ]

/-- `async prefetchDashboard(userId)`.  The health probe
(`backendAPI.isHealthy()`, awaited inside a `try`) is passed in as
`health`: `Except.error` models a probe that throws, `Except.ok b` a
probe answering `b`.  On an unhealthy or throwing probe the method
returns at once, leaving the state untouched.  Otherwise it issues the
eight `prefetch` calls synchronously, in source order, then attaches
`Promise.allSettled(prefetchTasks).catch(...)` WITHOUT `await` and
returns: its own promise resolves at the end of this synchronous
section, before any producer settles.  The returned list records, per
issued task, the key and what `prefetch` handed back. -/
def prefetchDashboard (st : PrefetchState) (userId : String)
    (health : Except String Bool) (now : Nat) :
    List (String × PrefetchResult) × PrefetchState :=
  match health with
  | Except.error _ => ([], st)
  | Except.ok false => ([], st)
  | Except.ok true =>
      (dashboardKeys userId).foldl
        (fun acc kt =>
          let r := prefetch acc.2 kt.1 kt.2 now
          (acc.1 ++ [(kt.1, r.1)], r.2))
        ([], st)

/-- One settlement event for an issued dashboard task: the producer of
`t.1` (with closure-captured TTL `t.2.1`) settles with outcome
`t.2.2`, running the corresponding handler. -/
def settleTask (st : PrefetchState) (t : String × Nat × Outcome)
    (now : Nat) : PrefetchState :=
  match t.2.2 with
  | Outcome.resolved v => settleSuccess st t.1 v t.2.1 now
  | Outcome.rejected _ => settleFailure st t.1

/-- Settle a batch of tasks one after another (each handler is an
atomic microtask). -/
def settleAll (st : PrefetchState) (ts : List (String × Nat × Outcome))
    (now : Nat) : PrefetchState :=
  ts.foldl (fun s t => settleTask s t now) st

end DataPrefetchService

/-- The resource names the spec's external-interface section lists for
the dashboard prefetch, verbatim from the spec (for comparison with
the keys the code actually issues). -/
def specResourceNames : List String :=
  [ "accounts", "accounts-summary", "transactions", "transaction-stats"
  , "transaction-recommendations", "savings-summary"
  , "comprehensive-insights", "privacy-score" ]

namespace DataPrefetchService

/-- The cache holds nothing for `key` that a `get` at time `now` could
hand out or evict: either no entry, or a fresh entry whose payload is
`null`.  In such a state `get` returns `null` without mutating
anything, so back-to-back `prefetch` calls at the same tick see the
identical state. -/
def stableCold (st : PrefetchState) (key : String) (now : Nat) : Prop :=
  match st.cache key with
  | none => True
  | some entry => entry.data = JSVal.null ∧ ¬ entry.ttl < now - entry.timestamp

/-- The `j`-th cache key issued by `prefetchDashboard(userId)`. -/
def keyAt (userId : String) (j : Nat) : String :=
  ((dashboardKeys userId).map Prod.fst).getD j ""

/-- The settlement batch for the orchestration-isolation scenario: the
producer of the `i`-th dashboard task rejects, every other producer
resolves with the distinct payload `num j`. -/
def dashTasks (userId : String) (i : Nat) : List (String × Nat × Outcome) :=
  (dashboardKeys userId).enum.map fun p =>
    (p.2.1, p.2.2,
      if p.1 = i then Outcome.rejected "producer failed"
      else Outcome.resolved (JSVal.num (p.1 : Int)))

end DataPrefetchService

namespace DataPrefetchService

@[simp]
theorem mapSet_self {α : Type} (m : String → Option α) (k : String) (v : α) :
    mapSet m k v k = some v := by
  simp [mapSet]

theorem mapSet_other {α : Type} (m : String → Option α) {k k' : String}
    (v : α) (h : k' ≠ k) : mapSet m k v k' = m k' := by
  simp [mapSet, h]

@[simp]
theorem mapDelete_self {α : Type} (m : String → Option α) (k : String) :
    mapDelete m k k = none := by
  simp [mapDelete]

theorem mapDelete_other {α : Type} (m : String → Option α) {k k' : String}
    (h : k' ≠ k) : mapDelete m k k' = m k' := by
  simp [mapDelete, h]

theorem get_cache_none {st : PrefetchState} {key : String} (now : Nat)
    (h : st.cache key = none) : get st key now = (JSVal.null, st) := by
  simp [get, h]

theorem get_cache_fresh {st : PrefetchState} {key : String} {now : Nat}
    {entry : CacheEntry} (h : st.cache key = some entry)
    (hf : ¬ entry.ttl < now - entry.timestamp) :
    get st key now = (entry.data, st) := by
  simp [get, h, hf]

theorem get_cache_stale {st : PrefetchState} {key : String} {now : Nat}
    {entry : CacheEntry} (h : st.cache key = some entry)
    (hs : entry.ttl < now - entry.timestamp) :
    get st key now = (JSVal.null, { st with cache := mapDelete st.cache key }) := by
  simp [get, h, hs]

/-- `get` never touches the in-flight map, the id supply, or the
producer counter. -/
theorem get_snd_fields (st : PrefetchState) (key : String) (now : Nat) :
    ((get st key now).2).prefetchPromises = st.prefetchPromises ∧
    ((get st key now).2).nextPromiseId = st.nextPromiseId ∧
    ((get st key now).2).producerCalls = st.producerCalls := by
  unfold get
  cases h : st.cache key with
  | none => exact ⟨rfl, rfl, rfl⟩
  | some entry =>
      by_cases hs : entry.ttl < now - entry.timestamp <;> simp [hs]

/-- In a stable-cold state `get` answers `null` and leaves the state
untouched. -/
theorem get_of_stableCold {st : PrefetchState} {key : String} {now : Nat}
    (h : stableCold st key now) : get st key now = (JSVal.null, st) := by
  unfold stableCold at h
  cases hc : st.cache key with
  | none => exact get_cache_none now hc
  | some entry =>
      rw [hc] at h
      have := get_cache_fresh hc h.2
      rw [this, h.1]

/-- A `get` that answered `null` leaves behind a stable-cold state for
that key at the same tick. -/
theorem stableCold_after_get {st : PrefetchState} {key : String} {now : Nat}
    (h : (get st key now).1 = JSVal.null) :
    stableCold ((get st key now).2) key now := by
  unfold stableCold
  cases hc : st.cache key with
  | none =>
      rw [get_cache_none now hc]
      simp [hc]
  | some entry =>
      by_cases hs : entry.ttl < now - entry.timestamp
      · rw [get_cache_stale hc hs]
        simp [mapDelete]
      · rw [get_cache_fresh hc hs]
        rw [get_cache_fresh hc hs] at h
        simp only at h
        simp [hc, hs, h]

/-- `stableCold` only looks at the cache. -/
theorem stableCold_congr {st st' : PrefetchState} {key : String} {now : Nat}
    (hc : st'.cache = st.cache) (h : stableCold st key now) :
    stableCold st' key now := by
  unfold stableCold at h ⊢
  rw [hc]
  exact h

/-- An entry whose payload is `null` makes `get` answer `null` whether
it is fresh or stale. -/
theorem get_fst_null_of_data_null {st : PrefetchState} {key : String}
    {entry : CacheEntry} (now : Nat) (h : st.cache key = some entry)
    (hd : entry.data = JSVal.null) : (get st key now).1 = JSVal.null := by
  by_cases hs : entry.ttl < now - entry.timestamp
  · rw [get_cache_stale h hs]
  · rw [get_cache_fresh h hs]
    exact hd

/-- A `prefetch` call that finds the key cold and no promise in flight
invokes the producer: it returns the fresh promise id, registers it
in the in-flight map, bumps the id supply and the producer counter,
and leaves the cache exactly as `get` left it. -/
theorem prefetch_start {st : PrefetchState} {key : String} (ttl now : Nat)
    (hc : (get st key now).1 = JSVal.null)
    (hp : st.prefetchPromises key = none) :
    (prefetch st key ttl now).1 = PrefetchResult.started st.nextPromiseId ∧
    ((prefetch st key ttl now).2).cache = ((get st key now).2).cache ∧
    ((prefetch st key ttl now).2).prefetchPromises
        = mapSet st.prefetchPromises key st.nextPromiseId ∧
    ((prefetch st key ttl now).2).nextPromiseId = st.nextPromiseId + 1 ∧
    ((prefetch st key ttl now).2).producerCalls = st.producerCalls + 1 := by
  have hf := get_snd_fields st key now
  have hp' : ((get st key now).2).prefetchPromises key = none := by
    rw [hf.1]; exact hp
  simp [prefetch, hc, hp', hf.1, hf.2.1, hf.2.2]

/-- A `prefetch` call that finds the key cold but a promise already in
flight joins it: it returns the existing promise and changes nothing. -/
theorem prefetch_join {st : PrefetchState} {key : String} {pid : Nat}
    (ttl now : Nat) (h : stableCold st key now)
    (hp : st.prefetchPromises key = some pid) :
    prefetch st key ttl now = (PrefetchResult.joined pid, st) := by
  simp [prefetch, get_of_stableCold h, hp]

/-- Every one of `n` back-to-back callers that find the key cold with
promise `pid` in flight joins `pid`; the state never changes. -/
theorem prefetchN_join {st : PrefetchState} {key : String} {pid : Nat}
    (ttl now : Nat) (h : stableCold st key now)
    (hp : st.prefetchPromises key = some pid) :
    ∀ n, prefetchN st key ttl now n
        = (List.replicate n (PrefetchResult.joined pid), st) := by
  intro n
  induction n with
  | zero => rfl
  | succ n ih =>
      simp [prefetchN, prefetch_join ttl now h hp, ih, List.replicate_succ]

end DataPrefetchService

namespace DataPrefetchService

/-- C2: for every key `k`, value `v` and duration `ttl`, after
`set(k, v, ttl)` at time `t0`, a `get(k)` at `t1` with
`t1 - t0 <= ttl` returns `v` (and mutates nothing), while a `get(k)`
at `t1` with `t1 - t0 > ttl` returns the absent marker and removes the
entry from the cache (lazy eviction on stale read). -/
theorem C2_freshness (st : PrefetchState) (key : String) (v : JSVal)
    (ttl t0 t1 : Nat) :
    (t1 - t0 ≤ ttl →
      get (set st key v ttl t0) key t1 = (v, set st key v ttl t0)) ∧
    (ttl < t1 - t0 →
      (get (set st key v ttl t0) key t1).1 = JSVal.null ∧
      ((get (set st key v ttl t0) key t1).2).cache key = none) := by
  have hcf : (set st key v ttl t0).cache key = some ⟨v, t0, ttl⟩ := by
    simp [set]
  constructor
  · intro h
    exact get_cache_fresh hcf (by simpa using Nat.not_lt.mpr h)
  · intro h
    rw [get_cache_stale hcf (by simpa using h)]
    simp

/-- Witness for C2 at a concrete input: `set` at time 10 with
TTL 100, a fresh read at 50 and a stale read at 200. -/
theorem C2_freshness_witness :
    50 - 10 ≤ 100 ∧
    get (set initState "k" (JSVal.num 7) 100 10) "k" 50
      = (JSVal.num 7, set initState "k" (JSVal.num 7) 100 10) ∧
    100 < 200 - 10 ∧
    (get (set initState "k" (JSVal.num 7) 100 10) "k" 200).1 = JSVal.null ∧
    ((get (set initState "k" (JSVal.num 7) 100 10) "k" 200).2).cache "k" = none := by
  refine ⟨by decide, ?_, by decide, ?_, ?_⟩
  · exact (C2_freshness initState "k" (JSVal.num 7) 100 10 50).1 (by decide)
  · exact ((C2_freshness initState "k" (JSVal.num 7) 100 10 200).2 (by decide)).1
  · exact ((C2_freshness initState "k" (JSVal.num 7) 100 10 200).2 (by decide)).2

/-- C8: `set(k, v1, ttl)` then `set(k, v2, ttl)` overwrites
unconditionally, resetting the creation timestamp to the second write
time; a `get(k)` before the second write expires returns `v2` (the
later write wins). -/
theorem C8_last_write_wins (st : PrefetchState) (key : String)
    (v1 v2 : JSVal) (ttl t0 t0' t1 : Nat) (h : t1 - t0' ≤ ttl) :
    (set (set st key v1 ttl t0) key v2 ttl t0').cache key
      = some ⟨v2, t0', ttl⟩ ∧
    (get (set (set st key v1 ttl t0) key v2 ttl t0') key t1).1 = v2 := by
  have hcf : (set (set st key v1 ttl t0) key v2 ttl t0').cache key
      = some ⟨v2, t0', ttl⟩ := by
    simp [set]
  refine ⟨hcf, ?_⟩
  rw [get_cache_fresh hcf (by simpa using Nat.not_lt.mpr h)]

/-- Witness for C8 at a concrete input. -/
theorem C8_last_write_wins_witness :
    30 - 20 ≤ 100 ∧
    (set (set initState "k" (JSVal.num 1) 100 10) "k" (JSVal.num 2) 100 20).cache "k"
      = some ⟨JSVal.num 2, 20, 100⟩ ∧
    (get (set (set initState "k" (JSVal.num 1) 100 10) "k" (JSVal.num 2) 100 20) "k" 30).1
      = JSVal.num 2 := by
  refine ⟨by decide, ?_, ?_⟩
  · exact (C8_last_write_wins initState "k" (JSVal.num 1) (JSVal.num 2)
      100 10 20 30 (by decide)).1
  · exact (C8_last_write_wins initState "k" (JSVal.num 1) (JSVal.num 2)
      100 10 20 30 (by decide)).2

/-- C9: a cached `null` payload is indistinguishable from absence at
the public interface: after `set(k, null, ttl)` (in particular via the
success handler of a producer that resolved with `null`), `get(k)`
reports the absent marker even before expiry, and a subsequent
`prefetch(k, producer, ttl)` treats `k` as a miss and invokes the
producer again (fresh promise id, producer counter bumped). -/
theorem C9_null_payload_absent (st : PrefetchState) (key : String)
    (ttl ttl' t0 t1 : Nat) :
    (get (set st key JSVal.null ttl t0) key t1).1 = JSVal.null ∧
    (prefetch (settleSuccess st key JSVal.null ttl t0) key ttl' t1).1
      = PrefetchResult.started (settleSuccess st key JSVal.null ttl t0).nextPromiseId ∧
    ((prefetch (settleSuccess st key JSVal.null ttl t0) key ttl' t1).2).producerCalls
      = (settleSuccess st key JSVal.null ttl t0).producerCalls + 1 := by
  have hset : (set st key JSVal.null ttl t0).cache key = some ⟨JSVal.null, t0, ttl⟩ := by
    simp [set]
  have h1 : (get (set st key JSVal.null ttl t0) key t1).1 = JSVal.null :=
    get_fst_null_of_data_null t1 hset rfl
  have hcache : (settleSuccess st key JSVal.null ttl t0).cache key
      = some ⟨JSVal.null, t0, ttl⟩ := hset
  have h2 : (get (settleSuccess st key JSVal.null ttl t0) key t1).1 = JSVal.null :=
    get_fst_null_of_data_null t1 hcache rfl
  have hp : (settleSuccess st key JSVal.null ttl t0).prefetchPromises key = none := by
    simp [settleSuccess]
  have hs := prefetch_start ttl' t1 h2 hp
  exact ⟨h1, hs.1, hs.2.2.2.2⟩

/-- A stable-cold key reads as `null` at every time, not just at the
tick that established stability: the entry, if any, has a `null`
payload, so `get` answers `null` whether it is fresh or stale. -/
theorem get_fst_null_of_stableCold {st : PrefetchState} {key : String}
    {now : Nat} (h : stableCold st key now) (t : Nat) :
    (get st key t).1 = JSVal.null := by
  unfold stableCold at h
  cases hc : st.cache key with
  | none => rw [get_cache_none t hc]
  | some entry =>
      rw [hc] at h
      exact get_fst_null_of_data_null t hc h.1

/-- C1: if `n + 1` concurrent `prefetch(k, producer, ttl)` calls race
on a key that is cold (reads as `null`) with no call in flight, the
first call invokes the producer exactly once (counter `+1`) and the
other `n` join its promise: every caller holds the single fresh
promise id, so under any outcome assignment all observe that one
invocation's outcome.  The in-flight map — a JS `Map`, so it holds at
most one entry per key by construction — maps `k` to that single id
until the settlement handlers run, and both handlers delete it the
moment they run (success additionally populates the cache). -/
theorem C1_coalescing (st : PrefetchState) (key : String)
    (ttl now n tset : Nat) (v : JSVal) (f : Nat → Outcome)
    (hc : (get st key now).1 = JSVal.null)
    (hp : st.prefetchPromises key = none) :
    (prefetchN st key ttl now (n + 1)).1
      = PrefetchResult.started st.nextPromiseId
          :: List.replicate n (PrefetchResult.joined st.nextPromiseId) ∧
    ((prefetchN st key ttl now (n + 1)).2).producerCalls
      = st.producerCalls + 1 ∧
    ((prefetchN st key ttl now (n + 1)).2).prefetchPromises key
      = some st.nextPromiseId ∧
    (settleSuccess (prefetchN st key ttl now (n + 1)).2 key v ttl tset).prefetchPromises key
      = none ∧
    (settleSuccess (prefetchN st key ttl now (n + 1)).2 key v ttl tset).cache key
      = some ⟨v, tset, ttl⟩ ∧
    (settleFailure (prefetchN st key ttl now (n + 1)).2 key).prefetchPromises key
      = none ∧
    (∀ r ∈ (prefetchN st key ttl now (n + 1)).1,
      resolveWith f r = f st.nextPromiseId) := by
  have hs := prefetch_start ttl now hc hp
  have hcold : stableCold (prefetch st key ttl now).2 key now :=
    stableCold_congr hs.2.1 (stableCold_after_get hc)
  have hpid : ((prefetch st key ttl now).2).prefetchPromises key
      = some st.nextPromiseId := by
    rw [hs.2.2.1]; simp
  have hN := prefetchN_join ttl now hcold hpid n
  have hexp : prefetchN st key ttl now (n + 1)
      = (PrefetchResult.started st.nextPromiseId
          :: List.replicate n (PrefetchResult.joined st.nextPromiseId),
         (prefetch st key ttl now).2) := by
    simp [prefetchN, hN, hs.1]
  rw [hexp]
  refine ⟨rfl, hs.2.2.2.2, hpid, by simp [settleSuccess, set],
    by simp [settleSuccess, set], by simp [settleFailure], ?_⟩
  intro r hr
  rcases List.mem_cons.mp hr with h1 | h1
  · rw [h1]; rfl
  · rw [List.eq_of_mem_replicate h1]; rfl

/-- Witness for C1 at a concrete input: three concurrent callers on a
cold key in the initial state. -/
theorem C1_coalescing_witness :
    (get initState "k" 0).1 = JSVal.null ∧
    initState.prefetchPromises "k" = none ∧
    ((prefetchN initState "k" 5 0 (2 + 1)).1
      = PrefetchResult.started initState.nextPromiseId
          :: List.replicate 2 (PrefetchResult.joined initState.nextPromiseId) ∧
    ((prefetchN initState "k" 5 0 (2 + 1)).2).producerCalls
      = initState.producerCalls + 1 ∧
    ((prefetchN initState "k" 5 0 (2 + 1)).2).prefetchPromises "k"
      = some initState.nextPromiseId ∧
    (settleSuccess (prefetchN initState "k" 5 0 (2 + 1)).2 "k" (JSVal.num 1) 5 0).prefetchPromises "k"
      = none ∧
    (settleSuccess (prefetchN initState "k" 5 0 (2 + 1)).2 "k" (JSVal.num 1) 5 0).cache "k"
      = some ⟨JSVal.num 1, 0, 5⟩ ∧
    (settleFailure (prefetchN initState "k" 5 0 (2 + 1)).2 "k").prefetchPromises "k"
      = none ∧
    (∀ r ∈ (prefetchN initState "k" 5 0 (2 + 1)).1,
      resolveWith (fun _ => Outcome.resolved (JSVal.num 1)) r
        = (fun _ => Outcome.resolved (JSVal.num 1)) initState.nextPromiseId)) :=
  ⟨rfl, rfl,
    C1_coalescing initState "k" 5 0 2 0 (JSVal.num 1)
      (fun _ => Outcome.resolved (JSVal.num 1)) rfl rfl⟩

/-- C4: when the single producer invocation for a cold key rejects,
the caller observes that rejection, the `.catch` handler removes the
in-flight entry without writing anything to the cache (the key still
reads as absent at any later time), and a subsequent
`prefetch(k, producer', ttl)` finds a cold key with nothing in flight
and therefore invokes `producer'` (fresh promise id, producer counter
bumped again). -/
theorem C4_failure_not_cached (st : PrefetchState) (key : String)
    (ttl ttl' now now' : Nat) (e : String) (f : Nat → Outcome)
    (hc : (get st key now).1 = JSVal.null)
    (hp : st.prefetchPromises key = none)
    (hf : f st.nextPromiseId = Outcome.rejected e) :
    (prefetch st key ttl now).1 = PrefetchResult.started st.nextPromiseId ∧
    resolveWith f (prefetch st key ttl now).1 = Outcome.rejected e ∧
    (settleFailure (prefetch st key ttl now).2 key).prefetchPromises key = none ∧
    (get (settleFailure (prefetch st key ttl now).2 key) key now').1 = JSVal.null ∧
    (prefetch (settleFailure (prefetch st key ttl now).2 key) key ttl' now').1
      = PrefetchResult.started
          (settleFailure (prefetch st key ttl now).2 key).nextPromiseId ∧
    ((prefetch (settleFailure (prefetch st key ttl now).2 key) key ttl' now').2).producerCalls
      = (settleFailure (prefetch st key ttl now).2 key).producerCalls + 1 := by
  have hs := prefetch_start ttl now hc hp
  have hcold : stableCold (settleFailure (prefetch st key ttl now).2 key) key now := by
    refine stableCold_congr ?_ (stableCold_after_get hc)
    show ((prefetch st key ttl now).2).cache = _
    exact hs.2.1
  have hnull : (get (settleFailure (prefetch st key ttl now).2 key) key now').1
      = JSVal.null := get_fst_null_of_stableCold hcold now'
  have hp2 : (settleFailure (prefetch st key ttl now).2 key).prefetchPromises key
      = none := by simp [settleFailure]
  have hs2 := prefetch_start ttl' now' hnull hp2
  refine ⟨hs.1, ?_, hp2, hnull, hs2.1, hs2.2.2.2.2⟩
  rw [hs.1]
  simp [resolveWith, hf]

/-- Witness for C4 at a concrete input: a producer whose promise is
assigned a rejection, then a retry with a fresh producer. -/
theorem C4_failure_not_cached_witness :
    (get initState "k" 0).1 = JSVal.null ∧
    initState.prefetchPromises "k" = none ∧
    (fun _ => Outcome.rejected "boom") initState.nextPromiseId
      = Outcome.rejected "boom" ∧
    ((prefetch initState "k" 5 0).1 = PrefetchResult.started initState.nextPromiseId ∧
    resolveWith (fun _ => Outcome.rejected "boom") (prefetch initState "k" 5 0).1
      = Outcome.rejected "boom" ∧
    (settleFailure (prefetch initState "k" 5 0).2 "k").prefetchPromises "k" = none ∧
    (get (settleFailure (prefetch initState "k" 5 0).2 "k") "k" 7).1 = JSVal.null ∧
    (prefetch (settleFailure (prefetch initState "k" 5 0).2 "k") "k" 9 7).1
      = PrefetchResult.started
          (settleFailure (prefetch initState "k" 5 0).2 "k").nextPromiseId ∧
    ((prefetch (settleFailure (prefetch initState "k" 5 0).2 "k") "k" 9 7).2).producerCalls
      = (settleFailure (prefetch initState "k" 5 0).2 "k").producerCalls + 1) :=
  ⟨rfl, rfl, rfl,
    C4_failure_not_cached initState "k" 5 9 0 7 "boom"
      (fun _ => Outcome.rejected "boom") rfl rfl rfl⟩

/-- C6: when the health probe throws or answers `false`,
`prefetchDashboard` returns without error, issues no prefetch task,
and leaves the whole service state — cache, in-flight map, id supply
and producer counter — untouched (zero producer invocations). -/
theorem C6_unhealthy_probe_aborts (st : PrefetchState) (userId : String)
    (now : Nat) (e : String) :
    prefetchDashboard st userId (Except.error e) now = ([], st) ∧
    prefetchDashboard st userId (Except.ok false) now = ([], st) :=
  ⟨rfl, rfl⟩

/-- The fan-out loop of `prefetchDashboard` records one task per entry
of its key list, in order, whatever each `prefetch` call returns. -/
theorem dashboard_fold_keys (now : Nat) :
    ∀ (ts : List (String × Nat)) (acc : List (String × PrefetchResult))
      (st : PrefetchState),
      (ts.foldl
        (fun acc kt =>
          let r := prefetch acc.2 kt.1 kt.2 now
          (acc.1 ++ [(kt.1, r.1)], r.2)) (acc, st)).1.map Prod.fst
        = acc.map Prod.fst ++ ts.map Prod.fst := by
  intro ts
  induction ts with
  | nil => intro acc st; simp
  | cons kt ts ih =>
      intro acc st
      simp only [List.foldl_cons]
      rw [ih]
      simp

/-- Starting from an empty cache, the fan-out loop keeps the cache
empty, never removes an in-flight entry, and leaves every key of its
task list in flight when it finishes. -/
theorem dashboard_fold_inflight (now : Nat) :
    ∀ (ts : List (String × Nat)) (acc : List (String × PrefetchResult))
      (st : PrefetchState),
      st.cache = (fun _ => none) →
      ((ts.foldl
          (fun acc kt =>
            let r := prefetch acc.2 kt.1 kt.2 now
            (acc.1 ++ [(kt.1, r.1)], r.2)) (acc, st)).2.cache
          = (fun _ => none) ∧
       (∀ k, st.prefetchPromises k ≠ none →
          (ts.foldl
            (fun acc kt =>
              let r := prefetch acc.2 kt.1 kt.2 now
              (acc.1 ++ [(kt.1, r.1)], r.2)) (acc, st)).2.prefetchPromises k ≠ none) ∧
       (∀ kt ∈ ts,
          (ts.foldl
            (fun acc kt =>
              let r := prefetch acc.2 kt.1 kt.2 now
              (acc.1 ++ [(kt.1, r.1)], r.2)) (acc, st)).2.prefetchPromises kt.1 ≠ none)) := by
  intro ts
  induction ts with
  | nil =>
      intro acc st hcache
      refine ⟨hcache, fun k hk => hk, fun kt hkt => absurd hkt (by simp)⟩
  | cons kt ts ih =>
      intro acc st hcache
      have hget : get st kt.1 now = (JSVal.null, st) :=
        get_cache_none now (by rw [hcache])
      have hc0 : (get st kt.1 now).1 = JSVal.null := by rw [hget]
      rw [List.foldl_cons]
      cases hp : st.prefetchPromises kt.1 with
      | some pid =>
          have hcold : stableCold st kt.1 now := by
            unfold stableCold; rw [hcache]; trivial
          have hj := prefetch_join kt.2 now hcold hp
          simp only [hj]
          obtain ⟨ha, hb, hc⟩ := ih (acc ++ [(kt.1, PrefetchResult.joined pid)]) st hcache
          refine ⟨ha, hb, ?_⟩
          intro kt' hkt'
          rcases List.mem_cons.mp hkt' with h1 | h1
          · subst h1
            exact hb kt'.1 (by rw [hp]; exact fun hx => Option.noConfusion hx)
          · exact hc kt' h1
      | none =>
          have hs := prefetch_start kt.2 now hc0 hp
          have hcache' : ((prefetch st kt.1 kt.2 now).2).cache = (fun _ => none) := by
            rw [hs.2.1, hget, hcache]
          obtain ⟨ha, hb, hc⟩ :=
            ih (acc ++ [(kt.1, (prefetch st kt.1 kt.2 now).1)])
              ((prefetch st kt.1 kt.2 now).2) hcache'
          have hmono : ∀ k, st.prefetchPromises k ≠ none →
              ((prefetch st kt.1 kt.2 now).2).prefetchPromises k ≠ none := by
            intro k hk
            rw [hs.2.2.1]
            by_cases hke : k = kt.1
            · subst hke; simp
            · rw [mapSet_other _ _ hke]; exact hk
          refine ⟨ha, fun k hk => hb k (hmono k hk), ?_⟩
          intro kt' hkt'
          rcases List.mem_cons.mp hkt' with h1 | h1
          · subst h1
            refine hb kt'.1 ?_
            rw [hs.2.2.1]
            simp
          · exact hc kt' h1

set_option maxHeartbeats 2000000 in
/-- C3 as stated is false: `prefetchDashboard` attaches
`Promise.allSettled` without `await`, so its promise resolves at the
end of its synchronous section while all eight tasks — whose
settlement handlers would remove their in-flight entries — are still
in flight.  Concretely, for user `"u1"` on a fresh service, at least
one issued key still has an in-flight entry when `prefetchDashboard`
returns. -/
theorem C3_counterexample :
    ¬ (∀ kt ∈ dashboardKeys "u1",
        ((prefetchDashboard initState "u1" (Except.ok true) 0).2).prefetchPromises kt.1
          = none) := by
  decide

/-- C3 amended: when `prefetchDashboard(userId)`'s promise resolves,
all eight resource prefetch calls have been *issued* (each key has an
in-flight entry, recorded in source order), but the orchestrator does
not await the fan-out/fan-in join: none of the tasks need have
settled — on a fresh service every one of the eight keys is still in
flight at that moment. -/
theorem C3_amended (userId : String) (now : Nat) :
    ((prefetchDashboard initState userId (Except.ok true) now).1.map Prod.fst
      = (dashboardKeys userId).map Prod.fst) ∧
    ∀ kt ∈ dashboardKeys userId,
      ((prefetchDashboard initState userId (Except.ok true) now).2).prefetchPromises kt.1
        ≠ none := by
  constructor
  · have h := dashboard_fold_keys now (dashboardKeys userId) [] initState
    simp only [List.nil_append, List.map_nil] at h
    simpa only [prefetchDashboard] using h
  · intro kt hkt
    have h := (dashboard_fold_inflight now (dashboardKeys userId) [] initState rfl).2.2 kt hkt
    simpa only [prefetchDashboard] using h

set_option maxHeartbeats 2000000 in
/-- C7 as stated is false: the spec's resource-name list says
`transaction-stats` (also `transaction-recommendations` and
`comprehensive-insights`), but the code issues `transactions-stats`,
`transactions-recommendations` and `ai-insights`.  Concretely, the
key `"transaction-stats:u1"` demanded by the claim is never issued by
`prefetchDashboard` for user `"u1"`. -/
theorem C7_counterexample :
    "transaction-stats:u1" ∈ specResourceNames.map (fun n => n ++ ":" ++ "u1") ∧
    "transaction-stats:u1" ∉
      ((prefetchDashboard initState "u1" (Except.ok true) 0).1.map Prod.fst) := by
  decide

/-- C7 amended: for every `userId`, `prefetchDashboard` issues its
eight prefetch calls under keys `"<resource-name>:<userId>"` where the
resource names are exactly, in source order: `accounts`,
`accounts-summary`, `transactions`, `transactions-stats`,
`transactions-recommendations`, `savings-summary`, `ai-insights`,
`privacy-score`. -/
theorem C7_amended (st : PrefetchState) (userId : String) (now : Nat) :
    (prefetchDashboard st userId (Except.ok true) now).1.map Prod.fst
      = [ "accounts:" ++ userId, "accounts-summary:" ++ userId,
          "transactions:" ++ userId, "transactions-stats:" ++ userId,
          "transactions-recommendations:" ++ userId,
          "savings-summary:" ++ userId, "ai-insights:" ++ userId,
          "privacy-score:" ++ userId ] := by
  show ((dashboardKeys userId).foldl _ ([], st)).1.map Prod.fst = _
  rw [dashboard_fold_keys now (dashboardKeys userId) [] st]
  rfl

set_option maxHeartbeats 2000000 in
/-- C5: with the producer of the `i`-th dashboard resource configured
to reject and the other seven to resolve (with distinct payloads),
`prefetchDashboard` for user `"u1"` completes (it is total: the only
awaited step, the health probe, sits in a `try`, task rejections are
absorbed by `Promise.allSettled`, and the model never throws), and
after every producer settles each succeeding key reads its own value
from the cache while the failing key reads as absent, with no cache
entry at all — one failing resource neither cancels nor fails the
others. -/
theorem C5_orchestration_isolation (i : Nat) (h : i < 8) :
    ∀ j, j < 8 →
      ((get (settleAll (prefetchDashboard initState "u1" (Except.ok true) 0).2
          (dashTasks "u1" i) 0) (keyAt "u1" j) 0).1
        = (if j = i then JSVal.null else JSVal.num (j : Int))) ∧
      (j = i → (settleAll (prefetchDashboard initState "u1" (Except.ok true) 0).2
          (dashTasks "u1" i) 0).cache (keyAt "u1" j) = none) := by
  interval_cases i <;> decide

set_option maxHeartbeats 2000000 in
/-- Witness for C5 at a concrete input: the third resource
(`transactions:u1`) fails, the other seven succeed. -/
theorem C5_orchestration_isolation_witness :
    2 < 8 ∧
    ∀ j, j < 8 →
      ((get (settleAll (prefetchDashboard initState "u1" (Except.ok true) 0).2
          (dashTasks "u1" 2) 0) (keyAt "u1" j) 0).1
        = (if j = 2 then JSVal.null else JSVal.num (j : Int))) ∧
      (j = 2 → (settleAll (prefetchDashboard initState "u1" (Except.ok true) 0).2
          (dashTasks "u1" 2) 0).cache (keyAt "u1" j) = none) :=
  ⟨by decide, C5_orchestration_isolation 2 (by decide)⟩

/-- C10: `clearAll` does not prevent repopulation by already-started
fetches.  A producer started for a cold key leaves an in-flight
entry; `clearAll` empties both maps; yet when the producer later
resolves, its `.then` handler (closed over the key and TTL) still
writes the result into the cache, so a fresh-enough `get` after
settlement returns the value even though the cache was cleared in
between. -/
theorem C10_clearAll_no_cancel (st : PrefetchState) (key : String)
    (ttl now tset tget : Nat) (v : JSVal)
    (hc : (get st key now).1 = JSVal.null)
    (hp : st.prefetchPromises key = none)
    (hfresh : tget - tset ≤ ttl) :
    (prefetch st key ttl now).1 = PrefetchResult.started st.nextPromiseId ∧
    (clearAll (prefetch st key ttl now).2).cache key = none ∧
    (clearAll (prefetch st key ttl now).2).prefetchPromises key = none ∧
    (settleSuccess (clearAll (prefetch st key ttl now).2) key v ttl tset).cache key
      = some ⟨v, tset, ttl⟩ ∧
    (get (settleSuccess (clearAll (prefetch st key ttl now).2) key v ttl tset) key tget).1
      = v := by
  have hs := prefetch_start ttl now hc hp
  have hcf : (settleSuccess (clearAll (prefetch st key ttl now).2) key v ttl tset).cache key
      = some ⟨v, tset, ttl⟩ := by
    simp [settleSuccess, set]
  refine ⟨hs.1, rfl, rfl, hcf, ?_⟩
  rw [get_cache_fresh hcf (by simpa using Nat.not_lt.mpr hfresh)]

/-- Witness for C10 at a concrete input. -/
theorem C10_clearAll_no_cancel_witness :
    (get initState "k" 0).1 = JSVal.null ∧
    initState.prefetchPromises "k" = none ∧
    9 - 5 ≤ 100 ∧
    ((prefetch initState "k" 100 0).1 = PrefetchResult.started initState.nextPromiseId ∧
    (clearAll (prefetch initState "k" 100 0).2).cache "k" = none ∧
    (clearAll (prefetch initState "k" 100 0).2).prefetchPromises "k" = none ∧
    (settleSuccess (clearAll (prefetch initState "k" 100 0).2) "k" (JSVal.num 3) 100 5).cache "k"
      = some ⟨JSVal.num 3, 5, 100⟩ ∧
    (get (settleSuccess (clearAll (prefetch initState "k" 100 0).2) "k" (JSVal.num 3) 100 5) "k" 9).1
      = JSVal.num 3) :=
  ⟨rfl, rfl, by decide,
    C10_clearAll_no_cancel initState "k" 100 0 5 9 (JSVal.num 3) rfl rfl (by decide)⟩

end DataPrefetchService
